import Mathlib

set_option maxRecDepth 40000

/-!
Verification development for the paper_reader pipeline.

Shallow embedding of the core of the repository (article_processor.py,
tag_manager.py, vector_store.py, openai_utils.py, utils.py, config.py).
LLM completions and embeddings are external effects; they are modelled by
oracles (the sequence of responses the provider would return), and the
filesystem is modelled by explicit maps from path strings to file states.
Python strings are modelled over ASCII: text handling in this repository
(slugs, filenames, comma-separated tag lists) is ASCII in practice.
-/

namespace PaperReader

/-! ## String helpers mirroring Python primitives -/

/-- Decides whether the first char list is an initial segment of the second
(used to model prefix tests on paths and on replace scans). -/
def listStartsWith : List Char → List Char → Bool
  | [], _ => true
  | _ :: _, [] => false
  | p :: ps, c :: cs => p == c && listStartsWith ps cs

/-- String version of listStartsWith: first argument is the pattern. -/
def strStartsWith (pat s : String) : Bool := listStartsWith pat.data s.data

/-- ASCII whitespace stripped by Python str.strip with no argument. -/
def isStripWhitespace (c : Char) : Bool :=
  c == ' ' || c == '\t' || c == '\n' || c == '\r' || c == '\x0b' || c == '\x0c'

/-- Python str.strip(): remove whitespace from both ends. -/
def pyStrip (s : String) : String :=
  String.mk (((s.data.dropWhile isStripWhitespace).reverse.dropWhile
    isStripWhitespace).reverse)

/-- Splitting on a separator character, keeping empty fields, as Python
str.split(",") does (the accumulator holds the current field reversed). -/
def splitOnCharAux (sep : Char) : List Char → List Char → List String
  | acc, [] => [String.mk acc.reverse]
  | acc, c :: rest =>
      if c == sep then String.mk acc.reverse :: splitOnCharAux sep [] rest
      else splitOnCharAux sep (c :: acc) rest

/-- Python str.split(","). -/
def pySplitComma (s : String) : List String := splitOnCharAux ',' [] s.data

/-- One scan step of Python str.replace, with explicit fuel.  Each step
consumes at least one character of the subject, so fuel equal to the length
of the subject computes the full replacement.  (Python replacement of an empty
pattern inserts the replacement between characters; the repository only
replaces the nonempty pattern ".md", where this model agrees with Python.) -/
def pyReplaceAux (pat rep : List Char) : Nat → List Char → List Char
  | 0, s => s
  | _ + 1, [] => []
  | fuel + 1, c :: rest =>
    if pat ≠ [] ∧ listStartsWith pat (c :: rest) then
      rep ++ pyReplaceAux pat rep fuel ((c :: rest).drop pat.length)
    else
      c :: pyReplaceAux pat rep fuel rest

/-- Python str.replace(old, new): replace every occurrence, scanning left to
right. -/
def pyReplace (s pat rep : String) : String :=
  String.mk (pyReplaceAux pat.data rep.data s.data.length s.data)

/-- ASCII whitespace, the characters matched by the regex class backslash-s
(space, tab, newline, carriage return, vertical tab, form feed). -/
def isPyWhitespace (c : Char) : Bool :=
  c == ' ' || c == '\t' || c == '\n' || c == '\r' || c == '\x0b' || c == '\x0c'

/-- Replace every maximal run of whitespace by a single hyphen: the effect of
re.sub over the pattern of one-or-more whitespace with a hyphen.  The Bool
argument records whether the previous character was inside a whitespace run. -/
def collapseWsAux : Bool → List Char → List Char
  | _, [] => []
  | inRun, c :: rest =>
    if isPyWhitespace c then
      if inRun then collapseWsAux true rest
      else '-' :: collapseWsAux true rest
    else c :: collapseWsAux false rest

/-- A word character in the sense of the regex class backslash-w restricted
to ASCII: letters, digits and the underscore. -/
def isWordChar (c : Char) : Bool := c.isAlphanum || c == '_'

/-- Python str.strip("-"): remove hyphens from both ends. -/
def stripHyphens (l : List Char) : List Char :=
  ((l.dropWhile (· == '-')).reverse.dropWhile (· == '-')).reverse

/-- utils.slugify: lowercase, collapse whitespace runs to hyphens, delete
every character that is neither a word character nor a hyphen, strip hyphens
from both ends, and fall back to "untitled" when nothing remains. -/
def slugify (s : String) : String :=
  let lowered := s.data.map Char.toLower
  let hyphened := collapseWsAux false lowered
  let filtered := hyphened.filter (fun c => isWordChar c || c == '-')
  let stripped := stripHyphens filtered
  if stripped.isEmpty then "untitled" else String.mk stripped

/-- Python str.title restricted to ASCII: uppercase a letter that does not
follow a letter, lowercase every other letter.  The Bool argument records
whether the previous character was alphabetic. -/
def titleCaseAux : Bool → List Char → List Char
  | _, [] => []
  | prevAlpha, c :: rest =>
    if c.isAlpha then
      (if prevAlpha then c.toLower else c.toUpper) :: titleCaseAux true rest
    else c :: titleCaseAux false rest

/-- utils.human_readable_slugify: replace hyphens and underscores with spaces
and title-case the result. -/
def human_readable_slugify (s : String) : String :=
  String.mk (titleCaseAux false
    (s.data.map (fun c => if c == '-' || c == '_' then ' ' else c)))

/-! ## Configuration constants (config.py) -/

def DOCS_DIR : String := "vault/docs"

def TAGS_DIR : String := "vault/tags"

def EXTRACTED_MD_FILE : String := "extracted.md"

def SUMMARIZED_MD_FILE : String := "summarized.md"

def SHORT_SUMMARIZED_MD_FILE : String := "short_summarized.md"

def TLDR_MD_FILE : String := "tldr.md"

def TAG_DESCRIPTION_MD_FILE : String := "description.md"

def TAG_SURVEY_MD_FILE : String := "survey.md"

/-- config.py line 98: the configured minimum number of related articles for
survey generation (default 2, comment in source: at least 2 articles). -/
def TAG_SURVEY_THRESHOLD : Nat := 2

/-- The environment-driven flags of config.py that the modelled code paths
read (force-rebuild of article artifacts and of tags, RAG enablement). -/
structure Config where
  DEFAULT_REBUILD : Bool
  DEFAULT_REBUILD_TAGS : Bool
  ENABLE_RAG_FOR_ARTICLES : Bool

/-! ## Data model (models.py) -/

/-- models.Content: a piece of text and its optional embedding vector.
Embedding components are modelled as rationals. -/
structure Content where
  content : String
  vector : Option (List ℚ)
deriving DecidableEq, Repr

/-- models.ArticleSummary: the record aprocess_article returns for one
article. -/
structure ArticleSummary where
  title : String
  paper_slug : String
  paper_path : String
  content : Content
  summary : Option Content
  short_summary : Option Content
  tldr : Option Content
  tags : List String
deriving DecidableEq, Repr

/-- models.TagInfo: the per-tag registry entry. -/
structure TagInfo where
  name : String
  tag_slug : String
  description : Option Content
  survey : Option Content
  related_paper_slugs : List String
deriving DecidableEq, Repr

/-! ## Filesystem model -/

/-- State of a compressed-array (.npz) file on disk: absent, unreadable, or
holding a vector. -/
inductive NpzState
  | absent
  | corrupt
  | good (v : List ℚ)
deriving DecidableEq, Repr

/-- The on-disk state the pipeline reads and writes: markdown text files,
npz embedding files, and per-article tags.json files (the latter modelled
directly as the JSON-decoded list they store). -/
structure FileSystem where
  textFile : String → Option String
  npzFile : String → NpzState
  tagsJson : String → Option (List String)

/-- The npz path belonging to a markdown file: the source swaps the ".md"
suffix for ".npz" via str.replace. -/
def npzName (filename_md : String) : String := pyReplace filename_md ".md" ".npz"

/-- Vector read from an npz state: absent and unreadable files degrade to no
vector (utils.load_text_and_embedding catches the load failure). -/
def npzVec : NpzState → Option (List ℚ)
  | .good v => some v
  | _ => none

/-- utils.load_text_and_embedding: cache read.  Returns none exactly when the
markdown file is absent; otherwise returns the text together with whatever
vector the npz file yields. -/
def load_text_and_embedding (fs : FileSystem) (base_path filename_md : String) :
    Option Content :=
  match fs.textFile (base_path ++ "/" ++ filename_md) with
  | none => none
  | some text_content =>
      some { content := text_content,
             vector := npzVec (fs.npzFile (base_path ++ "/" ++ npzName filename_md)) }

/-- utils.save_text_and_embedding: write the markdown file always, and the
npz file only when a vector is present (a stale npz file is left in place
otherwise, exactly as in the source). -/
def save_text_and_embedding (fs : FileSystem) (base_path filename_md : String)
    (text_content : String) (embedding_vector : Option (List ℚ)) : FileSystem :=
  let md_path := base_path ++ "/" ++ filename_md
  let npz_path := base_path ++ "/" ++ npzName filename_md
  { textFile := fun p => if p = md_path then some text_content else fs.textFile p
    npzFile := fun p =>
      match embedding_vector with
      | some v => if p = npz_path then .good v else fs.npzFile p
      | none => fs.npzFile p
    tagsJson := fs.tagsJson }

/-- Overwrite one tags.json file. -/
def FileSystem.setTagsJson (fs : FileSystem) (path : String) (tags : List String) :
    FileSystem :=
  { fs with tagsJson := fun p => if p = path then some tags else fs.tagsJson p }

/-- os.rename of a directory: every path below the old directory now resolves
below the new one, and the old paths no longer exist. -/
def FileSystem.renameDir (fs : FileSystem) (oldp newp : String) : FileSystem :=
  let redirect : String → Option String := fun p =>
    if p = newp || strStartsWith (newp ++ "/") p then
      some (oldp ++ (p.drop newp.length))
    else if p = oldp || strStartsWith (oldp ++ "/") p then none
    else some p
  { textFile := fun p => (redirect p).bind fs.textFile
    npzFile := fun p =>
      match redirect p with
      | some q => fs.npzFile q
      | none => .absent
    tagsJson := fun p => (redirect p).bind fs.tagsJson }

/-- A filesystem with no files at all. -/
def emptyFS : FileSystem :=
  { textFile := fun _ => none, npzFile := fun _ => .absent, tagsJson := fun _ => none }

/-! ## Completion gateway (openai_utils.py)

The chat-completion endpoint is an external effect.  An ApiOutcome is what
one call to the provider produces: a payload, or one of the exception kinds
the source catches (openai.APIConnectionError, openai.RateLimitError,
openai.APIStatusError, and the catch-all Exception branch). -/

inductive ApiOutcome (α : Type)
  | success (payload : α)
  | connectionError
  | rateLimitError
  | statusError
  | otherError
deriving DecidableEq, Repr

/-- Whether the outcome is one of the exception branches. -/
def ApiOutcome.isError {α : Type} : ApiOutcome α → Bool
  | .success _ => false
  | _ => true

/-- The part of a non-streaming chat response the gateway reads: the message
content of each choice (none when the provider omits it). -/
structure ChatResponse where
  choices : List (Option String)
deriving DecidableEq, Repr

/-- openai_utils.generate_completion, result extraction: the content of the
first choice when the choices list is nonempty and the content is truthy
(present and not the empty string); None otherwise. -/
def extractContent (response : ChatResponse) : Option String :=
  match response.choices with
  | [] => none
  | c :: _ =>
      match c with
      | none => none
      | some s => if s.isEmpty then none else some s

/-- A streaming response: the sequence of content deltas carried by the
chunks (none for chunks without a content delta, such as usage-only chunks
or reasoning-trace deltas, which the source never appends to the result). -/
def streamAssemble (chunks : List (Option String)) : String :=
  chunks.foldl (fun acc c => acc ++ c.getD "") ""

/-- openai_utils.agenerate_completion_streaming (and the synchronous
generate_completion_streaming it delegates to when concurrency is 1): the
returned text is the concatenation of the content deltas; every caught
exception yields None. -/
def agenerate_completion_streaming (outcome : ApiOutcome (List (Option String))) :
    Option String :=
  match outcome with
  | .success chunks => some (streamAssemble chunks)
  | _ => none

/-- openai_utils.generate_completion: when stream or thinking is requested it
delegates to the streaming variant, otherwise it issues one non-streaming
call and extracts the first choice; every caught exception yields None. -/
def generate_completion (stream thinking : Bool)
    (streamOutcome : ApiOutcome (List (Option String)))
    (chatOutcome : ApiOutcome ChatResponse) : Option String :=
  if stream || thinking then agenerate_completion_streaming streamOutcome
  else
    match chatOutcome with
    | .success response => extractContent response
    | _ => none

/-! ## Similarity index (vector_store.py) -/

/-- Sum of squares of the entries: the square of the euclidean norm that
numpy.linalg.norm computes.  The norm itself is zero exactly when this is. -/
def normSq (v : List ℚ) : ℚ := v.foldl (fun acc x => acc + x * x) 0

/-- numpy.dot on one-dimensional arrays: the inner product when the lengths
agree, and a raised ValueError (shapes not aligned) otherwise. -/
def npDot (v1 v2 : List ℚ) : Except Unit ℚ :=
  if v1.length = v2.length then
    .ok ((v1.zip v2).foldl (fun acc p => acc + p.1 * p.2) 0)
  else .error ()

/-- A floating-point square root on nonnegative inputs is zero exactly at
zero; any Lean function with that property stands in for the numpy norm
computation.  The similarity claims hold for every such function. -/
def SqrtSpec (sqrt : ℚ → ℚ) : Prop := ∀ x : ℚ, 0 ≤ x → (sqrt x = 0 ↔ x = 0)

/-- vector_store.cosine_similarity.  The source computes numpy.dot first,
then the two norms, then guards against zero norms before dividing.  An
error value models the ValueError numpy.dot raises on mismatched shapes;
the sqrt argument abstracts the square-root step of numpy.linalg.norm. -/
def cosine_similarity (sqrt : ℚ → ℚ) (vec1 vec2 : Option (List ℚ)) :
    Except Unit ℚ :=
  match vec1, vec2 with
  | none, _ => .ok 0
  | some _, none => .ok 0
  | some v1, some v2 =>
      match npDot v1 v2 with
      | .error e => .error e
      | .ok dot_product =>
          let norm_vec1 := sqrt (normSq v1)
          let norm_vec2 := sqrt (normSq v2)
          if norm_vec1 = 0 ∨ norm_vec2 = 0 then .ok 0
          else .ok (dot_product / (norm_vec1 * norm_vec2))

/-! ## Article pipeline (article_processor.py)

Pipeline state: the filesystem plus the number of completion-gateway calls
issued so far.  The completion oracle maps the index of a call to the text
the gateway returns for it (none models a gateway failure, which the
gateway never raises past itself).  The embedding oracle maps the embedded
text to the vector the embeddings endpoint returns (none on failure).
Prompt construction (message templates, RAG context blocks, previous-summary
seeds) only shapes the text sent to the provider, which the oracle already
abstracts, so it is not tracked; RAG lookups issue embedding calls only,
never completion calls. -/

structure GenState where
  fs : FileSystem
  calls : Nat

/-- Issue one completion-gateway call and hand back its oracle response. -/
def callLLM (oracle : Nat → Option String) (s : GenState) :
    Option String × GenState :=
  (oracle s.calls, { fs := s.fs, calls := s.calls + 1 })

/-- openai_utils.get_embedding: empty or whitespace-only text short-circuits
to none without a call; otherwise the embeddings endpoint answers. -/
def get_embedding (embedOracle : String → Option (List ℚ)) (text : String) :
    Option (List ℚ) :=
  if (pyStrip text).isEmpty then none else embedOracle text

/-- The pass1, pass2, pass3 and epilogue stages of the multi-pass summary:
one completion call per stage, aborting the whole summary when a call
returns no text (the source treats None and the empty string alike here).
Returns the success flag with the state after the calls actually issued. -/
def runSummaryStages (oracle : Nat → Option String) :
    List String → GenState → Bool × GenState
  | [], s => (true, s)
  | _stage :: rest, s =>
      let (r, s1) := callLLM oracle s
      match r with
      | none => (false, s1)
      | some t => if t.isEmpty then (false, s1) else runSummaryStages oracle rest s1

/-- article_processor._agenerate_and_save_content_article_summary: reuse the
cached summary unless a rebuild is forced; otherwise run the prelogue stage,
the four remaining stages, and the final merge call (whose result is checked
against None only, so an empty merged text is still saved), then embed and
save the merged text. -/
def _agenerate_and_save_content_article_summary (oracle : Nat → Option String)
    (embedOracle : String → Option (List ℚ)) (force_rebuild : Bool)
    (output_dir output_filename_md : String) (s : GenState) :
    Option Content × GenState :=
  let existing_content_obj := load_text_and_embedding s.fs output_dir output_filename_md
  if existing_content_obj.isSome && !force_rebuild then (existing_content_obj, s)
  else
    let (r0, s1) := callLLM oracle s
    match r0 with
    | none => (none, s1)
    | some t0 =>
        if t0.isEmpty then (none, s1)
        else
          match runSummaryStages oracle ["pass1", "pass2", "pass3", "epilogue"] s1 with
          | (false, s2) => (none, s2)
          | (true, s2) =>
              let (rm, s3) := callLLM oracle s2
              match rm with
              | none => (none, s3)
              | some merged =>
                  let embedding_vector := get_embedding embedOracle merged
                  (some { content := merged, vector := embedding_vector },
                   { fs := save_text_and_embedding s3.fs output_dir
                       output_filename_md merged embedding_vector,
                     calls := s3.calls })

/-- article_processor._agenerate_and_save_content_short_summary: reuse the
cache unless forced, otherwise one completion call; no text (None or empty)
fails the stage, otherwise embed and save. -/
def _agenerate_and_save_content_short_summary (oracle : Nat → Option String)
    (embedOracle : String → Option (List ℚ)) (force_rebuild : Bool)
    (output_dir output_filename_md : String) (s : GenState) :
    Option Content × GenState :=
  let existing_content_obj := load_text_and_embedding s.fs output_dir output_filename_md
  if existing_content_obj.isSome && !force_rebuild then (existing_content_obj, s)
  else
    let (r, s1) := callLLM oracle s
    match r with
    | none => (none, s1)
    | some t =>
        if t.isEmpty then (none, s1)
        else
          let embedding_vector := get_embedding embedOracle t
          (some { content := t, vector := embedding_vector },
           { fs := save_text_and_embedding s1.fs output_dir output_filename_md
               t embedding_vector,
             calls := s1.calls })

/-- article_processor._agenerate_and_save_content_tldr: same single-call
shape as the short summary (aprocess_article passes no RAG query, so the
RAG block is skipped). -/
def _agenerate_and_save_content_tldr (oracle : Nat → Option String)
    (embedOracle : String → Option (List ℚ)) (force_rebuild : Bool)
    (output_dir output_filename_md : String) (s : GenState) :
    Option Content × GenState :=
  let existing_content_obj := load_text_and_embedding s.fs output_dir output_filename_md
  if existing_content_obj.isSome && !force_rebuild then (existing_content_obj, s)
  else
    let (r, s1) := callLLM oracle s
    match r with
    | none => (none, s1)
    | some t =>
        if t.isEmpty then (none, s1)
        else
          let embedding_vector := get_embedding embedOracle t
          (some { content := t, vector := embedding_vector },
           { fs := save_text_and_embedding s1.fs output_dir output_filename_md
               t embedding_vector,
             calls := s1.calls })

/-- Python: [slugify(tag.strip()) for tag in s.split(",") if tag.strip()]. -/
def splitTags (s : String) : List String :=
  (((pySplitComma s).map pyStrip).filter (fun t => !t.isEmpty)).map slugify

/-- article_processor.agenerate_tags: one completion call; a falsy response
(None or empty) yields the empty tag list, otherwise the comma-separated
response is trimmed, filtered and slugified. -/
def agenerate_tags (oracle : Nat → Option String) (s : GenState) :
    List String × GenState :=
  let (r, s1) := callLLM oracle s
  match r with
  | none => ([], s1)
  | some tags_string =>
      if tags_string.isEmpty then ([], s1) else (splitTags tags_string, s1)

/-- The part of aprocess_article after the extracted content is in hand:
full summary (abort on failure), short summary (abort on failure), tldr
(failure tolerated), tags (reuse tags.json unless rebuilding), then the
assembled record.  paper_path is whatever the caller computed, which the
source never updates after a directory rename. -/
def aprocess_article_core (cfg : Config) (oracle : Nat → Option String)
    (embedOracle : String → Option (List ℚ))
    (article_title paper_slug paper_path : String) (extracted : Content)
    (s : GenState) : Option ArticleSummary × GenState :=
  let (summary_obj, s1) := _agenerate_and_save_content_article_summary oracle
    embedOracle cfg.DEFAULT_REBUILD paper_path SUMMARIZED_MD_FILE s
  match summary_obj with
  | none => (none, s1)
  | some summary =>
      let (short_summary_obj, s2) := _agenerate_and_save_content_short_summary
        oracle embedOracle cfg.DEFAULT_REBUILD paper_path SHORT_SUMMARIZED_MD_FILE s1
      match short_summary_obj with
      | none => (none, s2)
      | some short_summary =>
          let (tldr_obj, s3) := _agenerate_and_save_content_tldr oracle
            embedOracle cfg.DEFAULT_REBUILD paper_path TLDR_MD_FILE s2
          let tag_json_path := paper_path ++ "/" ++ "tags.json"
          let prev_tags_list := s3.fs.tagsJson tag_json_path
          let (tags_list, s4) :=
            if cfg.DEFAULT_REBUILD || prev_tags_list.isNone then
              agenerate_tags oracle s3
            else (prev_tags_list.getD [], s3)
          let s5 : GenState :=
            { fs := s4.fs.setTagsJson tag_json_path tags_list, calls := s4.calls }
          (some { title := article_title
                  paper_slug := paper_slug
                  paper_path := paper_path
                  content := extracted
                  summary := some summary
                  short_summary := some short_summary
                  tldr := tldr_obj
                  tags := tags_list }, s5)

/-- article_processor.aprocess_article.  paper_path is computed from the
discovered directory name; when that name differs from the slug of the title
the directory is renamed on disk, but paper_path keeps the old name and every
later read and write uses it.  A missing extraction file (after the rename,
the old path is empty) skips the article. -/
def aprocess_article (cfg : Config) (oracle : Nat → Option String)
    (embedOracle : String → Option (List ℚ)) (fs0 : FileSystem)
    (paper_directory_name article_title : String) :
    Option ArticleSummary × GenState :=
  let paper_slug := slugify article_title
  let paper_path := DOCS_DIR ++ "/" ++ paper_directory_name
  let fs1 :=
    if paper_directory_name ≠ paper_slug then
      fs0.renameDir (DOCS_DIR ++ "/" ++ paper_directory_name)
        (DOCS_DIR ++ "/" ++ paper_slug)
    else fs0
  let s : GenState := { fs := fs1, calls := 0 }
  match load_text_and_embedding s.fs paper_path EXTRACTED_MD_FILE with
  | some extracted_content_obj =>
      aprocess_article_core cfg oracle embedOracle article_title paper_slug
        paper_path extracted_content_obj s
  | none =>
      -- The source falls back to reading the markdown alone and embedding
      -- it; load_text_and_embedding only fails when the markdown is absent,
      -- so this fallback never finds the file and the article is skipped.
      match s.fs.textFile (paper_path ++ "/" ++ EXTRACTED_MD_FILE) with
      | some raw_text =>
          let embedding_vector := get_embedding embedOracle raw_text
          let s1 : GenState :=
            { fs := save_text_and_embedding s.fs paper_path EXTRACTED_MD_FILE
                raw_text embedding_vector,
              calls := s.calls }
          aprocess_article_core cfg oracle embedOracle article_title paper_slug
            paper_path { content := raw_text, vector := embedding_vector } s1
      | none => (none, s)

/-- main.py: the batch launches one aprocess_article task per discovered
paper from the same initial on-disk state and gathers the results in order
(articles only touch their own directories, so the tasks are independent). -/
def process_batch (cfg : Config) (oracle : Nat → Option String)
    (embedOracle : String → Option (List ℚ)) (fs : FileSystem)
    (papers : List (String × String)) : List (Option ArticleSummary) :=
  papers.map (fun p => (aprocess_article cfg oracle embedOracle fs p.1 p.2).1)

/-! ## Tag manager (tag_manager.py)

The process-wide tag registry _GLOBAL_TAG_STORE is modelled as an
association list from tag slug to TagInfo, in insertion order. -/

abbrev TagStore := List (String × TagInfo)

/-- Dictionary lookup in the registry. -/
def storeLookup : TagStore → String → Option TagInfo
  | [], _ => none
  | (k, v) :: rest, slug => if slug = k then some v else storeLookup rest slug

/-- Dictionary assignment in the registry: replace in place, or append a
fresh key at the end. -/
def storeSet : TagStore → String → TagInfo → TagStore
  | [], slug, info => [(slug, info)]
  | (k, v) :: rest, slug, info =>
      if slug = k then (k, info) :: rest else (k, v) :: storeSet rest slug info

/-- Python truthiness of tag_info fields checked as
(tag_info[field] and tag_info[field]["content"]). -/
def contentTruthy : Option Content → Bool
  | some c => !c.content.isEmpty
  | none => false

/-- tag_manager.get_or_create_tag_info: return the in-memory entry when
present; otherwise build one from the tag directory on disk, with an empty
related-paper list, and register it. -/
def get_or_create_tag_info (fs : FileSystem) (store : TagStore)
    (tag_name : String) : TagInfo × TagStore :=
  let tag_slug := slugify tag_name
  match storeLookup store tag_slug with
  | some info => (info, store)
  | none =>
      let tag_dir := TAGS_DIR ++ "/" ++ tag_slug
      let description_content := load_text_and_embedding fs tag_dir TAG_DESCRIPTION_MD_FILE
      let survey_content := load_text_and_embedding fs tag_dir TAG_SURVEY_MD_FILE
      let info : TagInfo :=
        { name := tag_name
          tag_slug := tag_slug
          description := description_content
          survey := survey_content
          related_paper_slugs := [] }
      (info, storeSet store tag_slug info)

/-- The per-related-article leg of generate_tag_survey: for each related
paper whose summarized.md is on disk, one completion call is issued (its
response only feeds the later prompts, and a failed call is skipped); papers
without a summary on disk are skipped without a call. -/
def surveyArticleCalls (oracle : Nat → Option String) :
    List String → GenState → GenState
  | [], s => s
  | paper_slug :: rest, s =>
      match load_text_and_embedding s.fs (DOCS_DIR ++ "/" ++ paper_slug)
          SUMMARIZED_MD_FILE with
      | none => surveyArticleCalls oracle rest s
      | some _ =>
          let (_, s1) := callLLM oracle s
          surveyArticleCalls oracle rest s1

/-- tag_manager.generate_tag_survey: skip when cached and not forced;
otherwise one prelogue call (abort on None), one call per related article
with a summary on disk, and one final synthesis call whose truthy text is
embedded, saved and written into the registry.  No related-article count is
ever consulted. -/
def generate_tag_survey (oracle : Nat → Option String)
    (embedOracle : String → Option (List ℚ)) (store : TagStore)
    (tag_name : String) (force_regenerate : Bool) (s : GenState) :
    TagStore × GenState :=
  let (tag_info, store1) := get_or_create_tag_info s.fs store tag_name
  let tag_dir := TAGS_DIR ++ "/" ++ tag_info.tag_slug
  if !force_regenerate && contentTruthy tag_info.survey then (store1, s)
  else
    let (r0, s1) := callLLM oracle s
    match r0 with
    | none => (store1, s1)
    | some _intro =>
        let s2 := surveyArticleCalls oracle tag_info.related_paper_slugs s1
        let (rf, s3) := callLLM oracle s2
        match rf with
        | none => (store1, s3)
        | some survey_text =>
            if survey_text.isEmpty then (store1, s3)
            else
              let embedding_vector := get_embedding embedOracle survey_text
              (storeSet store1 tag_info.tag_slug
                 { tag_info with survey := some { content := survey_text,
                                                  vector := embedding_vector } },
               { fs := save_text_and_embedding s3.fs tag_dir TAG_SURVEY_MD_FILE
                   survey_text embedding_vector,
                 calls := s3.calls })

/-- tag_manager.generate_tag_description: skip when cached and not forced;
otherwise one completion call over the related-summaries context (context
reads issue no completion calls); truthy text is embedded, saved and written
into the registry. -/
def generate_tag_description (oracle : Nat → Option String)
    (embedOracle : String → Option (List ℚ)) (store : TagStore)
    (tag_name : String) (force_regenerate : Bool) (s : GenState) :
    TagStore × GenState :=
  let (tag_info, store1) := get_or_create_tag_info s.fs store tag_name
  let tag_dir := TAGS_DIR ++ "/" ++ tag_info.tag_slug
  if !force_regenerate && contentTruthy tag_info.description then (store1, s)
  else
    let (r, s1) := callLLM oracle s
    match r with
    | none => (store1, s1)
    | some description_text =>
        if description_text.isEmpty then (store1, s1)
        else
          let embedding_vector := get_embedding embedOracle description_text
          (storeSet store1 tag_info.tag_slug
             { tag_info with description := some { content := description_text,
                                                   vector := embedding_vector } },
           { fs := save_text_and_embedding s1.fs tag_dir TAG_DESCRIPTION_MD_FILE
               description_text embedding_vector,
             calls := s1.calls })

/-- tag_manager.process_tag: generate the survey, then the description, both
with force_regenerate=True and with no look at the related-article count. -/
def process_tag (oracle : Nat → Option String)
    (embedOracle : String → Option (List ℚ)) (store : TagStore)
    (tag_info : TagInfo) (s : GenState) : TagStore × GenState :=
  let (store1, s1) := generate_tag_survey oracle embedOracle store
    tag_info.name true s
  generate_tag_description oracle embedOracle store1 tag_info.name true s1

/-- tag_manager._str_to_list: keep only alphanumerics, hyphens and commas,
split on commas, trim, drop empties. -/
def _str_to_list (s : String) : List String :=
  let pruned := String.mk (s.data.filter (fun c => c.isAlphanum || c == '-' || c == ','))
  (((pySplitComma pruned).map pyStrip).filter (fun t => !t.isEmpty))

/-- tag_manager.prune_tags: strip each tag, send the joined list through one
completion call; a truthy response is split, trimmed, deduplicated with set
semantics and slugified (Python iterates the set in unspecified order; this
model keeps one canonical order, which no claim depends on); a falsy
response falls back to slugifying the stripped input tags in order.  The
pruneOracle argument is the response of that one completion call. -/
def prune_tags (pruneOracle : Option String) (tags : List String) : List String :=
  let tags_stripped := tags.map pyStrip
  match pruneOracle with
  | some pruned =>
      if pruned.isEmpty then tags_stripped.map slugify
      else
        let pruned_tags := ((pySplitComma pruned).map pyStrip).filter
          (fun t => !t.isEmpty)
        pruned_tags.dedup.map slugify
  | none => tags_stripped.map slugify

/-- tag_manager.update_tags: one completion call shown the pruned vocabulary
and the article tags; None on failure, otherwise the permissive token split
of the response.  The updateOracle argument is the response of that call. -/
def update_tags (updateOracle : Option String) : Option (List String) :=
  match updateOracle with
  | none => none
  | some output => some (_str_to_list output)

/-- The reconciliation loop of process_all_tags_iteratively (step 1.1): for
every article with a nonempty tag list, one update_tags call; on success the
slugified response replaces the article tags and is written to the article
tags.json.  The pruned vocabulary reaches only the prompt, which the oracle
abstracts. -/
def reconcileArticles (updateOracle : Nat → Option String) :
    Nat → FileSystem → List ArticleSummary → List ArticleSummary × FileSystem
  | _, fs, [] => ([], fs)
  | i, fs, a :: rest =>
      if a.tags.isEmpty then
        let (rest', fs') := reconcileArticles updateOracle (i + 1) fs rest
        (a :: rest', fs')
      else
        match update_tags (updateOracle i) with
        | some pruned_tags =>
            let newTags := pruned_tags.map (fun t => slugify (pyStrip t))
            let fs1 := fs.setTagsJson (a.paper_path ++ "/" ++ "tags.json") newTags
            let (rest', fs') := reconcileArticles updateOracle (i + 1) fs1 rest
            ({ a with tags := newTags } :: rest', fs')
        | none =>
            let (rest', fs') := reconcileArticles updateOracle (i + 1) fs rest
            (a :: rest', fs')

/-- Union of the tag lists of the articles (Python accumulates them into a
set; list order here is one canonical choice). -/
def collectTags (articles : List ArticleSummary) : List String :=
  (articles.foldl (fun acc a => if a.tags.isEmpty then acc else acc ++ a.tags) []).dedup

/-- Step 1.2, first loop: register every canonical tag under the
human-readable form of its name. -/
def createTagEntries (fs : FileSystem) : TagStore → List String → TagStore
  | store, [] => store
  | store, t :: ts =>
      createTagEntries fs (get_or_create_tag_info fs store (human_readable_slugify t)).2 ts

/-- One registry append _GLOBAL_TAG_STORE[slug]["related_paper_slugs"].append:
none models the KeyError raised when the slug is not a registry key. -/
def storeAppendRelated : TagStore → String → String → Option TagStore
  | [], _, _ => none
  | (k, v) :: rest, slug, article_slug =>
      if slug = k then
        some ((k, { v with related_paper_slugs := v.related_paper_slugs ++ [article_slug] }) :: rest)
      else (storeAppendRelated rest slug article_slug).map (fun st => (k, v) :: st)

/-- Append one article slug for every occurrence of a tag in its tag list. -/
def linkTagsOfArticle (store : TagStore) (article_slug : String) :
    List String → Option TagStore
  | [] => some store
  | t :: ts =>
      match storeAppendRelated store t article_slug with
      | none => none
      | some store1 => linkTagsOfArticle store1 article_slug ts

/-- Step 1.2, second loop: for every article with a nonempty tag list,
append its slug to the registry entry of each tag occurrence. -/
def linkAllArticles (store : TagStore) : List ArticleSummary → Option TagStore
  | [] => some store
  | a :: rest =>
      if a.tags.isEmpty then linkAllArticles store rest
      else
        match linkTagsOfArticle store a.paper_slug a.tags with
        | none => none
        | some store1 => linkAllArticles store1 rest

/-- Step 1.2, third loop: look up each canonical tag and run process_tag on
its registry entry. -/
def processTagLoop (oracle : Nat → Option String)
    (embedOracle : String → Option (List ℚ)) :
    List String → TagStore → GenState → TagStore × GenState
  | [], store, s => (store, s)
  | t :: ts, store, s =>
      let (info, store1) := get_or_create_tag_info s.fs store t
      let (store2, s1) := process_tag oracle embedOracle store1 info s
      processTagLoop oracle embedOracle ts store2 s1

/-- tag_manager.process_all_tags_iteratively: collect the tag union; when
tag rebuilding is on, prune the vocabulary (one completion call feeding the
prompts), reconcile every article against it and recollect the union; then
register every tag, link every article occurrence into the registry (a tag
slug missing from the registry raises, modelled as none), and run
process_tag over every tag.  Returns the final registry and pipeline state. -/
def process_all_tags_iteratively (rebuild_tags : Bool)
    (pruneOracle : Option String) (updateOracle : Nat → Option String)
    (tagOracle : Nat → Option String)
    (embedOracle : String → Option (List ℚ)) (store0 : TagStore)
    (fs0 : FileSystem) (articles0 : List ArticleSummary) :
    Option (TagStore × GenState) :=
  let all_tags1 := collectTags articles0
  let step1 :=
    if rebuild_tags then
      let _all_tagsP := prune_tags pruneOracle all_tags1
      let (articles1, fs1) := reconcileArticles updateOracle 0 fs0 articles0
      (articles1, collectTags articles1, fs1)
    else (articles0, all_tags1, fs0)
  match step1 with
  | (articles1, all_tags2, fs1) =>
      let store1 := createTagEntries fs1 store0 all_tags2
      match linkAllArticles store1 articles1 with
      | none => none
      | some store2 =>
          some (processTagLoop tagOracle embedOracle all_tags2 store2
            { fs := fs1, calls := 0 })

/-! ## Derived notions used by the registry invariants -/

/-- The related-article list a registry key currently holds, if the key is
present. -/
def relatedOf (store : TagStore) (k : String) : Option (List String) :=
  (storeLookup store k).map TagInfo.related_paper_slugs

/-- A registry is consistent when every entry sits under its own slug; the
source maintains this because entries are only ever created and updated
under tag_info["tag_slug"]. -/
def ConsistentStore (store : TagStore) : Prop :=
  ∀ k info, storeLookup store k = some info → info.tag_slug = k

/-- Between two registry snapshots, every related-article list is either
unchanged or that of a freshly created empty entry.  The survey and
description passes only ever touch the survey and description fields. -/
def RelatedShrinks (store store' : TagStore) : Prop :=
  ∀ k, relatedOf store' k = relatedOf store k ∨ relatedOf store' k = some []

/-- The list of article slugs the linking pass appends to the registry entry
of a slug: one copy per occurrence of the slug in the tag list of each article,
in article order. -/
def linkedSlugs (slug : String) (articles : List ArticleSummary) : List String :=
  articles.foldr
    (fun a acc => List.replicate (a.tags.count slug) a.paper_slug ++ acc) []

/-! ## Concrete fixtures for witnesses and counterexamples -/

/-- The config with every modelled flag at its shipped default:
REBUILD_ALL read as false for a cache-respecting run, tag rebuilding on,
RAG on. -/
def cfgNoRebuild : Config :=
  { DEFAULT_REBUILD := false, DEFAULT_REBUILD_TAGS := true,
    ENABLE_RAG_FOR_ARTICLES := true }

/-- An oracle for a gateway whose every completion call fails. -/
def oracleNone : Nat → Option String := fun _ => none

/-- An oracle for a gateway whose every completion call returns "GEN". -/
def oracleGen : Nat → Option String := fun _ => some "GEN"

/-- An embeddings endpoint returning the vector [1] for every text. -/
def embedOne : String → Option (List ℚ) := fun _ => some [1]

/-- An embeddings endpoint whose every call fails. -/
def embedNone : String → Option (List ℚ) := fun _ => none

/-- Two article directories: paper-one has extracted text and a cached full
summary but no cached short summary; paper-two has every artifact and its
embedding cached, plus a tags.json. -/
def fsBatch : FileSystem :=
  { textFile := fun p =>
      if p = "vault/docs/paper-one/extracted.md" then some "EA"
      else if p = "vault/docs/paper-one/summarized.md" then some "SA"
      else if p = "vault/docs/paper-two/extracted.md" then some "EB"
      else if p = "vault/docs/paper-two/summarized.md" then some "SB"
      else if p = "vault/docs/paper-two/short_summarized.md" then some "HB"
      else if p = "vault/docs/paper-two/tldr.md" then some "TB"
      else none
    npzFile := fun p =>
      if p = "vault/docs/paper-one/extracted.npz" then .good [1]
      else if p = "vault/docs/paper-one/summarized.npz" then .good [2]
      else if p = "vault/docs/paper-two/extracted.npz" then .good [3]
      else if p = "vault/docs/paper-two/summarized.npz" then .good [4]
      else if p = "vault/docs/paper-two/short_summarized.npz" then .good [5]
      else if p = "vault/docs/paper-two/tldr.npz" then .good [6]
      else .absent
    tagsJson := fun p =>
      if p = "vault/docs/paper-two/tags.json" then some ["tag-b"] else none }

/-- The complete record the warm-cache run of paper-two produces. -/
def recordPaperTwo : ArticleSummary :=
  { title := "Paper Two"
    paper_slug := "paper-two"
    paper_path := "vault/docs/paper-two"
    content := { content := "EB", vector := some [3] }
    summary := some { content := "SB", vector := some [4] }
    short_summary := some { content := "HB", vector := some [5] }
    tldr := some { content := "TB", vector := some [6] }
    tags := ["tag-b"] }

/-- A paper directory named paper1 holding extracted text, discovered with a
title whose slug differs from the directory name. -/
def fsRename : FileSystem :=
  { textFile := fun p =>
      if p = "vault/docs/paper1/extracted.md" then some "TEXT1" else none
    npzFile := fun p =>
      if p = "vault/docs/paper1/extracted.npz" then .good [9] else .absent
    tagsJson := fun _ => none }

/-- A registry entry for one tag related to a single article: below the
configured survey threshold of two. -/
def infoOneRelated : TagInfo :=
  { name := "Deep Learning", tag_slug := "deep-learning",
    description := none, survey := none, related_paper_slugs := ["paper-a"] }

/-- The registry holding only that entry. -/
def storeOneRelated : TagStore := [("deep-learning", infoOneRelated)]

/-- A filesystem holding the summary of the single related article. -/
def fsOneRelated : FileSystem :=
  { textFile := fun p =>
      if p = "vault/docs/paper-a/summarized.md" then some "SUM" else none
    npzFile := fun _ => .absent
    tagsJson := fun _ => none }

/-- An article whose tag list repeats the tag t. -/
def artDupTags : ArticleSummary :=
  { title := "T", paper_slug := "a", paper_path := "vault/docs/a"
    content := { content := "", vector := none }
    summary := none, short_summary := none, tldr := none
    tags := ["t", "t"] }

/-- The same article with a duplicate-free tag list. -/
def artOneTag : ArticleSummary :=
  { title := "T", paper_slug := "a", paper_path := "vault/docs/a"
    content := { content := "", vector := none }
    summary := none, short_summary := none, tldr := none
    tags := ["t"] }

/-- A one-file filesystem used by the cache-read witness: text present, npz
file unreadable. -/
def fsCorruptNpz : FileSystem :=
  { textFile := fun p => if p = "d/a.md" then some "hello" else none
    npzFile := fun _ => .corrupt
    tagsJson := fun _ => none }

/-- The square-root stand-in used by witnesses: the identity is zero exactly
at zero, which is all SqrtSpec asks. -/
def idSqrt : ℚ → ℚ := fun x => x

/-! ## General lemmas about the cache store -/

theorem load_eq_some (fs : FileSystem) (base_path filename_md text : String)
    (h : fs.textFile (base_path ++ "/" ++ filename_md) = some text) :
    load_text_and_embedding fs base_path filename_md =
      some { content := text,
             vector := npzVec (fs.npzFile (base_path ++ "/" ++ npzName filename_md)) } := by
  unfold load_text_and_embedding
  rw [h]

theorem load_eq_none (fs : FileSystem) (base_path filename_md : String)
    (h : fs.textFile (base_path ++ "/" ++ filename_md) = none) :
    load_text_and_embedding fs base_path filename_md = none := by
  unfold load_text_and_embedding
  rw [h]

theorem article_summary_cache_hit (oracle : Nat → Option String)
    (embedOracle : String → Option (List ℚ)) (dir name : String) (s : GenState)
    (c : Content) (h : load_text_and_embedding s.fs dir name = some c) :
    _agenerate_and_save_content_article_summary oracle embedOracle false dir name s
      = (some c, s) := by
  unfold _agenerate_and_save_content_article_summary
  rw [h]
  rfl

theorem short_summary_cache_hit (oracle : Nat → Option String)
    (embedOracle : String → Option (List ℚ)) (dir name : String) (s : GenState)
    (c : Content) (h : load_text_and_embedding s.fs dir name = some c) :
    _agenerate_and_save_content_short_summary oracle embedOracle false dir name s
      = (some c, s) := by
  unfold _agenerate_and_save_content_short_summary
  rw [h]
  rfl

theorem tldr_cache_hit (oracle : Nat → Option String)
    (embedOracle : String → Option (List ℚ)) (dir name : String) (s : GenState)
    (c : Content) (h : load_text_and_embedding s.fs dir name = some c) :
    _agenerate_and_save_content_tldr oracle embedOracle false dir name s
      = (some c, s) := by
  unfold _agenerate_and_save_content_tldr
  rw [h]
  rfl

theorem short_summary_gen_fail (oracle : Nat → Option String)
    (embedOracle : String → Option (List ℚ)) (dir name : String) (s : GenState)
    (hload : load_text_and_embedding s.fs dir name = none)
    (hfail : oracle s.calls = none) :
    _agenerate_and_save_content_short_summary oracle embedOracle false dir name s
      = (none, { fs := s.fs, calls := s.calls + 1 }) := by
  unfold _agenerate_and_save_content_short_summary callLLM
  rw [hload, hfail]
  rfl

theorem aprocess_article_core_warm (cfg : Config) (oracle : Nat → Option String)
    (embedO : String → Option (List ℚ)) (title slug path : String)
    (extracted : Content) (s : GenState) (stext htext ttext : String)
    (tags : List String)
    (hreb : cfg.DEFAULT_REBUILD = false)
    (hS : s.fs.textFile (path ++ "/" ++ SUMMARIZED_MD_FILE) = some stext)
    (hH : s.fs.textFile (path ++ "/" ++ SHORT_SUMMARIZED_MD_FILE) = some htext)
    (hT : s.fs.textFile (path ++ "/" ++ TLDR_MD_FILE) = some ttext)
    (hJ : s.fs.tagsJson (path ++ "/" ++ "tags.json") = some tags) :
    aprocess_article_core cfg oracle embedO title slug path extracted s =
      (some { title := title, paper_slug := slug, paper_path := path,
              content := extracted,
              summary := some ⟨stext,
                npzVec (s.fs.npzFile (path ++ "/" ++ npzName SUMMARIZED_MD_FILE))⟩,
              short_summary := some ⟨htext,
                npzVec (s.fs.npzFile (path ++ "/" ++ npzName SHORT_SUMMARIZED_MD_FILE))⟩,
              tldr := some ⟨ttext,
                npzVec (s.fs.npzFile (path ++ "/" ++ npzName TLDR_MD_FILE))⟩,
              tags := tags },
       { fs := s.fs.setTagsJson (path ++ "/" ++ "tags.json") tags,
         calls := s.calls }) := by
  have e1 := article_summary_cache_hit oracle embedO path SUMMARIZED_MD_FILE s _
    (load_eq_some _ _ _ _ hS)
  have e2 := short_summary_cache_hit oracle embedO path SHORT_SUMMARIZED_MD_FILE s _
    (load_eq_some _ _ _ _ hH)
  have e3 := tldr_cache_hit oracle embedO path TLDR_MD_FILE s _
    (load_eq_some _ _ _ _ hT)
  unfold aprocess_article_core
  rw [hreb, e1]
  dsimp only
  rw [e2]
  dsimp only
  rw [e3]
  dsimp only
  rw [hJ]
  rfl

theorem aprocess_article_warm (cfg : Config) (oracle : Nat → Option String)
    (embedO : String → Option (List ℚ)) (fs : FileSystem)
    (paper_directory_name article_title : String)
    (etext stext htext ttext : String) (tags : List String)
    (hreb : cfg.DEFAULT_REBUILD = false)
    (hdir : paper_directory_name = slugify article_title)
    (hE : fs.textFile (DOCS_DIR ++ "/" ++ slugify article_title ++ "/" ++
      EXTRACTED_MD_FILE) = some etext)
    (hS : fs.textFile (DOCS_DIR ++ "/" ++ slugify article_title ++ "/" ++
      SUMMARIZED_MD_FILE) = some stext)
    (hH : fs.textFile (DOCS_DIR ++ "/" ++ slugify article_title ++ "/" ++
      SHORT_SUMMARIZED_MD_FILE) = some htext)
    (hT : fs.textFile (DOCS_DIR ++ "/" ++ slugify article_title ++ "/" ++
      TLDR_MD_FILE) = some ttext)
    (hJ : fs.tagsJson (DOCS_DIR ++ "/" ++ slugify article_title ++ "/" ++
      "tags.json") = some tags) :
    aprocess_article cfg oracle embedO fs paper_directory_name article_title =
      (some { title := article_title,
              paper_slug := slugify article_title,
              paper_path := DOCS_DIR ++ "/" ++ slugify article_title,
              content := ⟨etext, npzVec (fs.npzFile (DOCS_DIR ++ "/" ++
                slugify article_title ++ "/" ++ npzName EXTRACTED_MD_FILE))⟩,
              summary := some ⟨stext, npzVec (fs.npzFile (DOCS_DIR ++ "/" ++
                slugify article_title ++ "/" ++ npzName SUMMARIZED_MD_FILE))⟩,
              short_summary := some ⟨htext, npzVec (fs.npzFile (DOCS_DIR ++ "/" ++
                slugify article_title ++ "/" ++ npzName SHORT_SUMMARIZED_MD_FILE))⟩,
              tldr := some ⟨ttext, npzVec (fs.npzFile (DOCS_DIR ++ "/" ++
                slugify article_title ++ "/" ++ npzName TLDR_MD_FILE))⟩,
              tags := tags },
       { fs := fs.setTagsJson (DOCS_DIR ++ "/" ++ slugify article_title ++ "/" ++
           "tags.json") tags,
         calls := 0 }) := by
  subst hdir
  unfold aprocess_article
  dsimp only
  rw [if_neg (fun h => h rfl)]
  rw [load_eq_some _ _ _ _ hE]
  exact aprocess_article_core_warm cfg oracle embedO article_title
    (slugify article_title) (DOCS_DIR ++ "/" ++ slugify article_title) _
    { fs := fs, calls := 0 } stext htext ttext tags hreb hS hH hT hJ

theorem aprocess_article_short_fail (cfg : Config) (oracle : Nat → Option String)
    (embedO : String → Option (List ℚ)) (fs : FileSystem)
    (paper_directory_name article_title : String) (etext stext : String)
    (hreb : cfg.DEFAULT_REBUILD = false)
    (hdir : paper_directory_name = slugify article_title)
    (hE : fs.textFile (DOCS_DIR ++ "/" ++ slugify article_title ++ "/" ++
      EXTRACTED_MD_FILE) = some etext)
    (hS : fs.textFile (DOCS_DIR ++ "/" ++ slugify article_title ++ "/" ++
      SUMMARIZED_MD_FILE) = some stext)
    (hH : fs.textFile (DOCS_DIR ++ "/" ++ slugify article_title ++ "/" ++
      SHORT_SUMMARIZED_MD_FILE) = none)
    (hfail : oracle 0 = none) :
    aprocess_article cfg oracle embedO fs paper_directory_name article_title =
      (none, { fs := fs, calls := 1 }) := by
  subst hdir
  unfold aprocess_article
  dsimp only
  rw [if_neg (fun h => h rfl)]
  rw [load_eq_some _ _ _ _ hE]
  unfold aprocess_article_core
  rw [hreb]
  rw [article_summary_cache_hit oracle embedO _ SUMMARIZED_MD_FILE _ _
    (load_eq_some _ _ _ _ hS)]
  dsimp only
  rw [short_summary_gen_fail oracle embedO _ SHORT_SUMMARIZED_MD_FILE _
    (load_eq_none _ _ _ hH) hfail]

/-! ## Claim C1 -/

/-- C1: for an article directory whose cached artifacts (summary, short
summary, TLDR, tags and their embedding files) already exist on disk and
with force-rebuild disabled, rerunning aprocess_article returns exactly the
cached content (every generation stage short-circuits on its cache check)
and issues zero completion-gateway calls: the final call counter is 0 and
the only filesystem effect is rewriting tags.json with its own content. -/
theorem aprocess_article_warm_cache_idempotent (cfg : Config)
    (oracle : Nat → Option String) (embedO : String → Option (List ℚ))
    (fs : FileSystem) (paper_directory_name article_title : String)
    (etext stext htext ttext : String) (evec svec hvec tvec : List ℚ)
    (tags : List String)
    (hreb : cfg.DEFAULT_REBUILD = false)
    (hdir : paper_directory_name = slugify article_title)
    (hE : fs.textFile (DOCS_DIR ++ "/" ++ slugify article_title ++ "/" ++
      EXTRACTED_MD_FILE) = some etext)
    (hEn : fs.npzFile (DOCS_DIR ++ "/" ++ slugify article_title ++ "/" ++
      npzName EXTRACTED_MD_FILE) = .good evec)
    (hS : fs.textFile (DOCS_DIR ++ "/" ++ slugify article_title ++ "/" ++
      SUMMARIZED_MD_FILE) = some stext)
    (hSn : fs.npzFile (DOCS_DIR ++ "/" ++ slugify article_title ++ "/" ++
      npzName SUMMARIZED_MD_FILE) = .good svec)
    (hH : fs.textFile (DOCS_DIR ++ "/" ++ slugify article_title ++ "/" ++
      SHORT_SUMMARIZED_MD_FILE) = some htext)
    (hHn : fs.npzFile (DOCS_DIR ++ "/" ++ slugify article_title ++ "/" ++
      npzName SHORT_SUMMARIZED_MD_FILE) = .good hvec)
    (hT : fs.textFile (DOCS_DIR ++ "/" ++ slugify article_title ++ "/" ++
      TLDR_MD_FILE) = some ttext)
    (hTn : fs.npzFile (DOCS_DIR ++ "/" ++ slugify article_title ++ "/" ++
      npzName TLDR_MD_FILE) = .good tvec)
    (hJ : fs.tagsJson (DOCS_DIR ++ "/" ++ slugify article_title ++ "/" ++
      "tags.json") = some tags) :
    aprocess_article cfg oracle embedO fs paper_directory_name article_title =
      (some { title := article_title,
              paper_slug := slugify article_title,
              paper_path := DOCS_DIR ++ "/" ++ slugify article_title,
              content := ⟨etext, some evec⟩,
              summary := some ⟨stext, some svec⟩,
              short_summary := some ⟨htext, some hvec⟩,
              tldr := some ⟨ttext, some tvec⟩,
              tags := tags },
       { fs := fs.setTagsJson (DOCS_DIR ++ "/" ++ slugify article_title ++ "/" ++
           "tags.json") tags,
         calls := 0 }) := by
  rw [aprocess_article_warm cfg oracle embedO fs paper_directory_name
    article_title etext stext htext ttext tags hreb hdir hE hS hH hT hJ]
  rw [hEn, hSn, hHn, hTn]
  rfl

/-- Witness for C1: the fully cached directory paper-two of fsBatch, with a
gateway whose every call would fail, still yields the cached record with the
call counter at zero. -/
theorem aprocess_article_warm_cache_idempotent_witness :
    aprocess_article cfgNoRebuild oracleNone embedNone fsBatch "paper-two"
        "Paper Two" =
      (some { title := "Paper Two",
              paper_slug := slugify "Paper Two",
              paper_path := DOCS_DIR ++ "/" ++ slugify "Paper Two",
              content := ⟨"EB", some [3]⟩,
              summary := some ⟨"SB", some [4]⟩,
              short_summary := some ⟨"HB", some [5]⟩,
              tldr := some ⟨"TB", some [6]⟩,
              tags := ["tag-b"] },
       { fs := fsBatch.setTagsJson (DOCS_DIR ++ "/" ++ slugify "Paper Two" ++
           "/" ++ "tags.json") ["tag-b"],
         calls := 0 }) :=
  aprocess_article_warm_cache_idempotent cfgNoRebuild oracleNone embedNone
    fsBatch "paper-two" "Paper Two" "EB" "SB" "HB" "TB" [3] [4] [5] [6]
    ["tag-b"] rfl (by decide) (by decide) (by decide) (by decide) (by decide)
    (by decide) (by decide) (by decide) (by decide) (by decide)

/-! ## Claim C2 -/

/-- C2 (counterexample): article paper-one of fsBatch has its full summary
cached (so the summary stage succeeds), the short-summary stage returns no
text, and aprocess_article returns no record at all, not a record with the
summary populated. -/
theorem short_summary_failure_counterexample :
    (load_text_and_embedding fsBatch ("vault/docs" ++ "/" ++ "paper-one")
      SUMMARIZED_MD_FILE).isSome = true ∧
    (aprocess_article cfgNoRebuild oracleNone embedNone fsBatch "paper-one"
      "Paper One").1 = none := by
  decide

/-- C2 (amended): when the short-summary stage returns no text for article A
after the full summary of A succeeded from cache, aprocess_article returns None
for A (the record is dropped, not degraded to a partial one), while every
other article in the batch still produces its complete record. -/
theorem short_summary_failure_drops_article (cfg : Config)
    (oracle : Nat → Option String) (embedO : String → Option (List ℚ))
    (fs : FileSystem) (dirA titleA dirB titleB : String)
    (eA sA : String) (eB sB hB tB : String) (evB svB hvB tvB : List ℚ)
    (tagsB : List String)
    (hreb : cfg.DEFAULT_REBUILD = false)
    (hdirA : dirA = slugify titleA)
    (hEA : fs.textFile (DOCS_DIR ++ "/" ++ slugify titleA ++ "/" ++
      EXTRACTED_MD_FILE) = some eA)
    (hSA : fs.textFile (DOCS_DIR ++ "/" ++ slugify titleA ++ "/" ++
      SUMMARIZED_MD_FILE) = some sA)
    (hHA : fs.textFile (DOCS_DIR ++ "/" ++ slugify titleA ++ "/" ++
      SHORT_SUMMARIZED_MD_FILE) = none)
    (hfail : oracle 0 = none)
    (hdirB : dirB = slugify titleB)
    (hEB : fs.textFile (DOCS_DIR ++ "/" ++ slugify titleB ++ "/" ++
      EXTRACTED_MD_FILE) = some eB)
    (hEnB : fs.npzFile (DOCS_DIR ++ "/" ++ slugify titleB ++ "/" ++
      npzName EXTRACTED_MD_FILE) = .good evB)
    (hSB : fs.textFile (DOCS_DIR ++ "/" ++ slugify titleB ++ "/" ++
      SUMMARIZED_MD_FILE) = some sB)
    (hSnB : fs.npzFile (DOCS_DIR ++ "/" ++ slugify titleB ++ "/" ++
      npzName SUMMARIZED_MD_FILE) = .good svB)
    (hHB : fs.textFile (DOCS_DIR ++ "/" ++ slugify titleB ++ "/" ++
      SHORT_SUMMARIZED_MD_FILE) = some hB)
    (hHnB : fs.npzFile (DOCS_DIR ++ "/" ++ slugify titleB ++ "/" ++
      npzName SHORT_SUMMARIZED_MD_FILE) = .good hvB)
    (hTB : fs.textFile (DOCS_DIR ++ "/" ++ slugify titleB ++ "/" ++
      TLDR_MD_FILE) = some tB)
    (hTnB : fs.npzFile (DOCS_DIR ++ "/" ++ slugify titleB ++ "/" ++
      npzName TLDR_MD_FILE) = .good tvB)
    (hJB : fs.tagsJson (DOCS_DIR ++ "/" ++ slugify titleB ++ "/" ++
      "tags.json") = some tagsB) :
    process_batch cfg oracle embedO fs [(dirA, titleA), (dirB, titleB)] =
      [none,
       some { title := titleB,
              paper_slug := slugify titleB,
              paper_path := DOCS_DIR ++ "/" ++ slugify titleB,
              content := ⟨eB, some evB⟩,
              summary := some ⟨sB, some svB⟩,
              short_summary := some ⟨hB, some hvB⟩,
              tldr := some ⟨tB, some tvB⟩,
              tags := tagsB }] := by
  unfold process_batch
  dsimp only [List.map]
  rw [aprocess_article_short_fail cfg oracle embedO fs dirA titleA eA sA
    hreb hdirA hEA hSA hHA hfail]
  rw [aprocess_article_warm cfg oracle embedO fs dirB titleB eB sB hB tB tagsB
    hreb hdirB hEB hSB hHB hTB hJB]
  rw [hEnB, hSnB, hHnB, hTnB]
  rfl

/-- Witness for C2 (amended): in fsBatch, paper-one is dropped while
paper-two still produces its complete record. -/
theorem short_summary_failure_drops_article_witness :
    process_batch cfgNoRebuild oracleNone embedNone fsBatch
        [("paper-one", "Paper One"), ("paper-two", "Paper Two")] =
      [none,
       some { title := "Paper Two",
              paper_slug := slugify "Paper Two",
              paper_path := DOCS_DIR ++ "/" ++ slugify "Paper Two",
              content := ⟨"EB", some [3]⟩,
              summary := some ⟨"SB", some [4]⟩,
              short_summary := some ⟨"HB", some [5]⟩,
              tldr := some ⟨"TB", some [6]⟩,
              tags := ["tag-b"] }] :=
  short_summary_failure_drops_article cfgNoRebuild oracleNone embedNone fsBatch
    "paper-one" "Paper One" "paper-two" "Paper Two" "EA" "SA" "EB" "SB" "HB"
    "TB" [3] [4] [5] [6] ["tag-b"] rfl (by decide) (by decide) (by decide)
    (by decide) rfl (by decide) (by decide) (by decide) (by decide) (by decide)
    (by decide) (by decide) (by decide) (by decide) (by decide)

/-! ## Claim C3 -/

/-- C3: process_tag never consults TAG_SURVEY_THRESHOLD.  For the registry
entry infoOneRelated, related to a single article (strictly below the
configured minimum of two), process_tag still generates and stores a survey,
issuing four completion calls (survey prelogue, one per related article,
survey synthesis, description). -/
theorem process_tag_ignores_survey_threshold :
    infoOneRelated.related_paper_slugs.length < TAG_SURVEY_THRESHOLD ∧
    (storeLookup (process_tag oracleGen embedOne storeOneRelated infoOneRelated
        { fs := fsOneRelated, calls := 0 }).1 "deep-learning").map TagInfo.survey
      = some (some { content := "GEN", vector := some [1] }) ∧
    (process_tag oracleGen embedOne storeOneRelated infoOneRelated
        { fs := fsOneRelated, calls := 0 }).2.calls = 4 := by
  decide

/-! ## Claim C5 -/

/-- C5: on a directory whose name differs from the slug of its title, the
source renames the directory on disk but keeps reading from the old path,
which the rename just emptied: the extraction file is then reported missing
and aprocess_article returns no record (with zero completion calls) instead
of processing the slug-named directory. -/
theorem aprocess_article_rename_stale_path :
    "paper1" ≠ slugify "Attention Is All You Need" ∧
    (aprocess_article cfgNoRebuild oracleGen embedOne fsRename "paper1"
      "Attention Is All You Need").2.fs.textFile
      "vault/docs/attention-is-all-you-need/extracted.md" = some "TEXT1" ∧
    (aprocess_article cfgNoRebuild oracleGen embedOne fsRename "paper1"
      "Attention Is All You Need").2.fs.textFile
      "vault/docs/paper1/extracted.md" = none ∧
    (aprocess_article cfgNoRebuild oracleGen embedOne fsRename "paper1"
      "Attention Is All You Need").1 = none ∧
    (aprocess_article cfgNoRebuild oracleGen embedOne fsRename "paper1"
      "Attention Is All You Need").2.calls = 0 := by
  decide

/-! ## Claim C6 -/

/-- C6: the completion gateway is total over every API outcome; when the
call fails (transport, rate-limit, API-status or any other caught error) it
returns None for both the streaming and the non-streaming paths, and any
returned text comes from a successful outcome (assembled stream deltas, or
the first choice of a non-streaming response). -/
theorem generate_completion_failure_to_none (stream thinking : Bool)
    (streamOutcome : ApiOutcome (List (Option String)))
    (chatOutcome : ApiOutcome ChatResponse) :
    (streamOutcome.isError = true → chatOutcome.isError = true →
      generate_completion stream thinking streamOutcome chatOutcome = none) ∧
    (∀ s : String,
      generate_completion stream thinking streamOutcome chatOutcome = some s →
      (∃ chunks, streamOutcome = .success chunks ∧ s = streamAssemble chunks) ∨
      (∃ response, chatOutcome = .success response ∧
        extractContent response = some s)) := by
  unfold generate_completion agenerate_completion_streaming
  by_cases hb : (stream || thinking) = true
  · rw [if_pos hb]
    cases streamOutcome with
    | success chunks =>
        refine ⟨fun h _ => by simp [ApiOutcome.isError] at h, ?_⟩
        intro s hs
        exact Or.inl ⟨chunks, rfl, by simpa using hs.symm⟩
    | connectionError => exact ⟨fun _ _ => rfl, fun s hs => by simp at hs⟩
    | rateLimitError => exact ⟨fun _ _ => rfl, fun s hs => by simp at hs⟩
    | statusError => exact ⟨fun _ _ => rfl, fun s hs => by simp at hs⟩
    | otherError => exact ⟨fun _ _ => rfl, fun s hs => by simp at hs⟩
  · rw [if_neg hb]
    cases chatOutcome with
    | success response =>
        refine ⟨fun _ h => by simp [ApiOutcome.isError] at h, ?_⟩
        intro s hs
        exact Or.inr ⟨response, rfl, hs⟩
    | connectionError => exact ⟨fun _ _ => rfl, fun s hs => by simp at hs⟩
    | rateLimitError => exact ⟨fun _ _ => rfl, fun s hs => by simp at hs⟩
    | statusError => exact ⟨fun _ _ => rfl, fun s hs => by simp at hs⟩
    | otherError => exact ⟨fun _ _ => rfl, fun s hs => by simp at hs⟩

/-- Witness for C6: a rate-limited streaming call and an errored
non-streaming call both surface as None. -/
theorem generate_completion_failure_to_none_witness :
    generate_completion true false ApiOutcome.rateLimitError
      ApiOutcome.otherError = none ∧
    generate_completion false false ApiOutcome.otherError
      ApiOutcome.statusError = none :=
  ⟨(generate_completion_failure_to_none true false ApiOutcome.rateLimitError
      ApiOutcome.otherError).1 rfl rfl,
   (generate_completion_failure_to_none false false ApiOutcome.otherError
      ApiOutcome.statusError).1 rfl rfl⟩

/-! ## Claim C7 -/

/-- C7: load_text_and_embedding returns None exactly when the text file is
absent; when the text file exists and the embedding file is absent or
unreadable, it returns the text with no vector: a missing or corrupt vector
file is never a cache miss and never an error. -/
theorem load_text_and_embedding_cache_semantics (fs : FileSystem)
    (base_path filename_md : String) :
    (load_text_and_embedding fs base_path filename_md = none ↔
      fs.textFile (base_path ++ "/" ++ filename_md) = none) ∧
    (∀ text, fs.textFile (base_path ++ "/" ++ filename_md) = some text →
      (fs.npzFile (base_path ++ "/" ++ npzName filename_md) = .absent ∨
       fs.npzFile (base_path ++ "/" ++ npzName filename_md) = .corrupt) →
      load_text_and_embedding fs base_path filename_md =
        some { content := text, vector := none }) := by
  constructor
  · cases h : fs.textFile (base_path ++ "/" ++ filename_md) with
    | none => simp [load_eq_none fs base_path filename_md h, h]
    | some t => simp [load_eq_some fs base_path filename_md t h, h]
  · intro text ht hnpz
    rw [load_eq_some fs base_path filename_md text ht]
    rcases hnpz with h | h <;> rw [h] <;> rfl

/-- Witness for C7: a directory whose markdown file is present but whose npz
file is unreadable yields the cached text with an absent vector. -/
theorem load_text_and_embedding_cache_semantics_witness :
    load_text_and_embedding fsCorruptNpz "d" "a.md" =
      some { content := "hello", vector := none } :=
  (load_text_and_embedding_cache_semantics fsCorruptNpz "d" "a.md").2 "hello"
    (by decide) (Or.inr (by decide))

/-! ## Claim C8 -/

theorem foldl_add_sq_le (v : List ℚ) (acc : ℚ) :
    acc ≤ v.foldl (fun a x => a + x * x) acc := by
  induction v generalizing acc with
  | nil => simp
  | cons x xs ih =>
      simp only [List.foldl]
      calc acc ≤ acc + x * x := le_add_of_nonneg_right (mul_self_nonneg x)
        _ ≤ xs.foldl (fun a x => a + x * x) (acc + x * x) := ih (acc + x * x)

theorem normSq_nonneg (v : List ℚ) : 0 ≤ normSq v := foldl_add_sq_le v 0

theorem sqrt_normSq_ne_zero (sqrt : ℚ → ℚ) (hs : SqrtSpec sqrt) (v : List ℚ)
    (h : normSq v ≠ 0) : sqrt (normSq v) ≠ 0 :=
  fun h0 => h ((hs (normSq v) (normSq_nonneg v)).mp h0)

/-- C8 (counterexample): the source computes numpy.dot before the zero-norm
guards, and numpy.dot raises ValueError on one-dimensional arrays of unequal
length, so two zero-norm vectors of different dimension raise instead of
returning 0.0. -/
theorem cosine_similarity_mismatched_dims_counterexample :
    cosine_similarity idSqrt (some [0]) (some [0, 0]) = .error () ∧
    normSq [(0 : ℚ)] = 0 ∧ normSq [(0 : ℚ), 0] = 0 := by
  refine ⟨?_, by norm_num [normSq], by norm_num [normSq]⟩
  rfl

/-- C8 (amended): for vectors of equal dimension (as the embeddings of one
model are), cosine_similarity always returns a value: 0 when either argument
is None, 0 when either vector has zero norm, and otherwise a quotient whose
denominator, the product of the two norms, is nonzero, so no division by
zero ever happens. -/
theorem cosine_similarity_guarded (sqrt : ℚ → ℚ) (hs : SqrtSpec sqrt)
    (vec1 vec2 : Option (List ℚ))
    (hlen : ∀ v1 v2, vec1 = some v1 → vec2 = some v2 → v1.length = v2.length) :
    ∃ q : ℚ, cosine_similarity sqrt vec1 vec2 = .ok q ∧
      ((vec1 = none ∨ vec2 = none) → q = 0) ∧
      (∀ v1 v2, vec1 = some v1 → vec2 = some v2 →
        (normSq v1 = 0 ∨ normSq v2 = 0) → q = 0) ∧
      (∀ v1 v2, vec1 = some v1 → vec2 = some v2 → normSq v1 ≠ 0 →
        normSq v2 ≠ 0 → sqrt (normSq v1) * sqrt (normSq v2) ≠ 0) := by
  cases vec1 with
  | none =>
      exact ⟨0, rfl, fun _ => rfl, by simp, by simp⟩
  | some v1 =>
      cases vec2 with
      | none =>
          exact ⟨0, rfl, fun _ => rfl, by simp, by simp⟩
      | some v2 =>
          have hl := hlen v1 v2 rfl rfl
          have hmul : ∀ w1 w2 : List ℚ, some v1 = some w1 → some v2 = some w2 →
              normSq w1 ≠ 0 → normSq w2 ≠ 0 →
              sqrt (normSq w1) * sqrt (normSq w2) ≠ 0 := by
            intro w1 w2 h1 h2 hn1 hn2
            exact mul_ne_zero (sqrt_normSq_ne_zero sqrt hs w1 hn1)
              (sqrt_normSq_ne_zero sqrt hs w2 hn2)
          unfold cosine_similarity npDot
          dsimp only
          rw [if_pos hl]
          dsimp only
          by_cases hz : sqrt (normSq v1) = 0 ∨ sqrt (normSq v2) = 0
          · rw [if_pos hz]
            exact ⟨0, rfl, fun _ => rfl, fun _ _ _ _ _ => rfl, hmul⟩
          · rw [if_neg hz]
            refine ⟨_, rfl, ?_, ?_, hmul⟩
            · rintro (h | h) <;> exact absurd h (by simp)
            · rintro w1 w2 h1 h2 hn
              cases h1
              cases h2
              rcases hn with hn | hn
              · exact absurd (Or.inl ((hs _ (normSq_nonneg _)).mpr hn)) hz
              · exact absurd (Or.inr ((hs _ (normSq_nonneg _)).mpr hn)) hz

/-- Witness for C8 (amended): the guarded similarity at two unit vectors. -/
theorem cosine_similarity_guarded_witness :
    ∃ q : ℚ, cosine_similarity idSqrt (some [1]) (some [1]) = .ok q ∧
      ((some [(1 : ℚ)] = none ∨ some [(1 : ℚ)] = none) → q = 0) ∧
      (∀ v1 v2, some [(1 : ℚ)] = some v1 → some [(1 : ℚ)] = some v2 →
        (normSq v1 = 0 ∨ normSq v2 = 0) → q = 0) ∧
      (∀ v1 v2, some [(1 : ℚ)] = some v1 → some [(1 : ℚ)] = some v2 →
        normSq v1 ≠ 0 → normSq v2 ≠ 0 →
        idSqrt (normSq v1) * idSqrt (normSq v2) ≠ 0) :=
  cosine_similarity_guarded idSqrt (fun _ _ => Iff.rfl) (some [1]) (some [1])
    (fun v1 v2 h1 h2 => by cases h1; cases h2; rfl)

/-! ## Claim C9 -/

theorem mem_of_mem_dropWhile {α : Type} (p : α → Bool) (l : List α) (a : α)
    (h : a ∈ l.dropWhile p) : a ∈ l := by
  induction l with
  | nil => simp at h
  | cons x xs ih =>
      rw [List.dropWhile_cons] at h
      by_cases hp : p x = true
      · rw [if_pos hp] at h
        exact List.mem_cons_of_mem x (ih h)
      · rw [if_neg hp] at h
        exact h

theorem mem_of_mem_stripHyphens (l : List Char) (c : Char)
    (h : c ∈ stripHyphens l) : c ∈ l := by
  unfold stripHyphens at h
  rw [List.mem_reverse] at h
  have h2 := mem_of_mem_dropWhile _ _ _ h
  rw [List.mem_reverse] at h2
  exact mem_of_mem_dropWhile _ _ _ h2

/-- C9 (counterexample): slugify keeps the underscore (the regex deletes
only characters outside the word class, and underscore is a word character),
so the output is not restricted to alphanumerics and hyphens as claimed. -/
theorem slugify_underscore_counterexample :
    '_' ∈ (slugify "a_b").data ∧ '_'.isAlphanum = false ∧ '_' ≠ '-' := by
  decide

/-- C9 (amended): slugify is deterministic with the claimed edge cases, and
every output character is a word character (alphanumeric or underscore) or a
hyphen: the strip step removes exactly the characters outside the word class
other than hyphens. -/
theorem slugify_amended_spec :
    slugify "" = "untitled" ∧ slugify "!!!" = "untitled" ∧
    slugify "Attention Is All You Need" = "attention-is-all-you-need" ∧
    ∀ s : String, ∀ c ∈ (slugify s).data,
      c.isAlphanum = true ∨ c = '_' ∨ c = '-' := by
  refine ⟨by decide, by decide, by decide, ?_⟩
  intro s c hc
  unfold slugify at hc
  dsimp only at hc
  by_cases he : (stripHyphens ((collapseWsAux false (s.data.map Char.toLower)).filter
      (fun c => isWordChar c || c == '-'))).isEmpty
  · rw [if_pos he] at hc
    have hall : ∀ x ∈ ("untitled").data, x.isAlphanum = true ∨ x = '_' ∨ x = '-' := by
      decide
    exact hall c hc
  · rw [if_neg he] at hc
    have hmem : c ∈ (collapseWsAux false (s.data.map Char.toLower)).filter
        (fun c => isWordChar c || c == '-') :=
      mem_of_mem_stripHyphens _ c hc
    have hpred := List.of_mem_filter hmem
    simp only [isWordChar, Bool.or_eq_true, beq_iff_eq] at hpred
    rcases hpred with (h | h) | h
    · exact Or.inl h
    · exact Or.inr (Or.inl h)
    · exact Or.inr (Or.inr h)

/-- Witness for C9 (amended): the empty-title sentinel together with the
character guarantee at a concrete slug. -/
theorem slugify_amended_spec_witness :
    slugify "" = "untitled" ∧
    ('x'.isAlphanum = true ∨ 'x' = '_' ∨ 'x' = '-') :=
  ⟨slugify_amended_spec.1, slugify_amended_spec.2.2.2 "x!" 'x' (by decide)⟩

/-! ## Claim C10 -/

/-- C10: when the vocabulary-pruning completion call yields no text (a
failure or an empty response), prune_tags returns the stripped and slugified
original tags in their original order: the vocabulary survives the failure. -/
theorem prune_tags_fallback_preserves_tags (tags : List String)
    (pruneOracle : Option String)
    (h : pruneOracle = none ∨ pruneOracle = some "") :
    prune_tags pruneOracle tags = (tags.map pyStrip).map slugify := by
  rcases h with h | h <;> subst h <;> rfl

/-- Witness for C10: a failed pruning call over two raw tags falls back to
their stripped slugs. -/
theorem prune_tags_fallback_preserves_tags_witness :
    prune_tags none [" Deep Learning ", "RAG"] = ["deep-learning", "rag"] :=
  (prune_tags_fallback_preserves_tags [" Deep Learning ", "RAG"] none
    (Or.inl rfl)).trans (by decide)

/-! ## Claim C4: registry lemmas -/

theorem storeLookup_storeSet (store : TagStore) (k : String) (info : TagInfo)
    (k' : String) :
    storeLookup (storeSet store k info) k' =
      if k' = k then some info else storeLookup store k' := by
  induction store with
  | nil =>
      by_cases h : k' = k <;> simp [storeSet, storeLookup, h]
  | cons e rest ih =>
      obtain ⟨k0, v0⟩ := e
      by_cases h1 : k = k0
      · subst h1
        by_cases h2 : k' = k <;> simp [storeSet, storeLookup, h2]
      · by_cases h2 : k' = k0
        · subst h2
          have hne : ¬ k' = k := fun hh => h1 hh.symm
          simp [storeSet, storeLookup, h1, hne]
        · simp [storeSet, storeLookup, h1, h2, ih]

theorem goc_hit (fs : FileSystem) (store : TagStore) (tag_name : String)
    (info : TagInfo) (h : storeLookup store (slugify tag_name) = some info) :
    get_or_create_tag_info fs store tag_name = (info, store) := by
  unfold get_or_create_tag_info
  dsimp only
  rw [h]

theorem goc_miss (fs : FileSystem) (store : TagStore) (tag_name : String)
    (h : storeLookup store (slugify tag_name) = none) :
    get_or_create_tag_info fs store tag_name =
      (⟨tag_name, slugify tag_name,
        load_text_and_embedding fs (TAGS_DIR ++ "/" ++ slugify tag_name)
          TAG_DESCRIPTION_MD_FILE,
        load_text_and_embedding fs (TAGS_DIR ++ "/" ++ slugify tag_name)
          TAG_SURVEY_MD_FILE, []⟩,
       storeSet store (slugify tag_name)
        ⟨tag_name, slugify tag_name,
         load_text_and_embedding fs (TAGS_DIR ++ "/" ++ slugify tag_name)
           TAG_DESCRIPTION_MD_FILE,
         load_text_and_embedding fs (TAGS_DIR ++ "/" ++ slugify tag_name)
           TAG_SURVEY_MD_FILE, []⟩) := by
  unfold get_or_create_tag_info
  dsimp only
  rw [h]

theorem consistent_storeSet (store : TagStore) (k : String) (info : TagInfo)
    (hc : ConsistentStore store) (hk : info.tag_slug = k) :
    ConsistentStore (storeSet store k info) := by
  intro k' info' h'
  rw [storeLookup_storeSet] at h'
  by_cases hkk : k' = k
  · rw [if_pos hkk] at h'
    injection h' with h'
    rw [← h', hk, hkk]
  · rw [if_neg hkk] at h'
    exact hc k' info' h'

theorem goc_consistent (fs : FileSystem) (store : TagStore) (tag_name : String)
    (hc : ConsistentStore store) :
    ConsistentStore (get_or_create_tag_info fs store tag_name).2 := by
  cases h : storeLookup store (slugify tag_name) with
  | some info => rw [goc_hit fs store tag_name info h]; exact hc
  | none => rw [goc_miss fs store tag_name h]; exact consistent_storeSet _ _ _ hc rfl

theorem goc_fst_slug (fs : FileSystem) (store : TagStore) (tag_name : String)
    (hc : ConsistentStore store) :
    (get_or_create_tag_info fs store tag_name).1.tag_slug = slugify tag_name := by
  cases h : storeLookup store (slugify tag_name) with
  | some info => rw [goc_hit fs store tag_name info h]; exact hc _ _ h
  | none => rw [goc_miss fs store tag_name h]

theorem goc_fst_cases (fs : FileSystem) (store : TagStore) (tag_name : String) :
    storeLookup store (slugify tag_name) =
      some (get_or_create_tag_info fs store tag_name).1 ∨
    (get_or_create_tag_info fs store tag_name).1.related_paper_slugs = [] := by
  cases h : storeLookup store (slugify tag_name) with
  | some info => rw [goc_hit fs store tag_name info h]; exact Or.inl rfl
  | none => rw [goc_miss fs store tag_name h]; exact Or.inr rfl

theorem goc_relatedShrinks (fs : FileSystem) (store : TagStore)
    (tag_name : String) :
    RelatedShrinks store (get_or_create_tag_info fs store tag_name).2 := by
  intro k
  cases h : storeLookup store (slugify tag_name) with
  | some info => rw [goc_hit fs store tag_name info h]; exact Or.inl rfl
  | none =>
      rw [goc_miss fs store tag_name h]
      unfold relatedOf
      rw [storeLookup_storeSet]
      by_cases hk : k = slugify tag_name
      · rw [if_pos hk]; exact Or.inr rfl
      · rw [if_neg hk]; exact Or.inl rfl

theorem relatedShrinks_trans (a b c : TagStore) (h1 : RelatedShrinks a b)
    (h2 : RelatedShrinks b c) : RelatedShrinks a c := by
  intro k
  rcases h2 k with h | h
  · rw [h]; exact h1 k
  · exact Or.inr h

theorem survey_result_cases (oracle : Nat → Option String)
    (embedO : String → Option (List ℚ)) (store : TagStore)
    (tag_name : String) (force : Bool) (s : GenState) :
    (generate_tag_survey oracle embedO store tag_name force s).1 =
      (get_or_create_tag_info s.fs store tag_name).2 ∨
    ∃ c : Content, (generate_tag_survey oracle embedO store tag_name force s).1 =
      storeSet (get_or_create_tag_info s.fs store tag_name).2
        (get_or_create_tag_info s.fs store tag_name).1.tag_slug
        { (get_or_create_tag_info s.fs store tag_name).1 with survey := some c } := by
  unfold generate_tag_survey
  rcases hg : get_or_create_tag_info s.fs store tag_name with ⟨tag_info, store1⟩
  dsimp only
  by_cases hskip : (!force && contentTruthy tag_info.survey) = true
  · rw [if_pos hskip]; exact Or.inl rfl
  · rw [if_neg hskip]
    unfold callLLM
    dsimp only
    cases h0 : oracle s.calls with
    | none => exact Or.inl rfl
    | some intro_text =>
        dsimp only
        cases hf : oracle (surveyArticleCalls oracle tag_info.related_paper_slugs
            { fs := s.fs, calls := s.calls + 1 }).calls with
        | none => exact Or.inl rfl
        | some survey_text =>
            dsimp only
            by_cases he : survey_text.isEmpty = true
            · rw [if_pos he]; exact Or.inl rfl
            · rw [if_neg he]
              exact Or.inr ⟨_, rfl⟩

theorem description_result_cases (oracle : Nat → Option String)
    (embedO : String → Option (List ℚ)) (store : TagStore)
    (tag_name : String) (force : Bool) (s : GenState) :
    (generate_tag_description oracle embedO store tag_name force s).1 =
      (get_or_create_tag_info s.fs store tag_name).2 ∨
    ∃ c : Content,
      (generate_tag_description oracle embedO store tag_name force s).1 =
      storeSet (get_or_create_tag_info s.fs store tag_name).2
        (get_or_create_tag_info s.fs store tag_name).1.tag_slug
        { (get_or_create_tag_info s.fs store tag_name).1 with
            description := some c } := by
  unfold generate_tag_description
  rcases hg : get_or_create_tag_info s.fs store tag_name with ⟨tag_info, store1⟩
  dsimp only
  by_cases hskip : (!force && contentTruthy tag_info.description) = true
  · rw [if_pos hskip]; exact Or.inl rfl
  · rw [if_neg hskip]
    unfold callLLM
    dsimp only
    cases h0 : oracle s.calls with
    | none => exact Or.inl rfl
    | some description_text =>
        dsimp only
        by_cases he : description_text.isEmpty = true
        · rw [if_pos he]; exact Or.inl rfl
        · rw [if_neg he]
          exact Or.inr ⟨_, rfl⟩

theorem set_field_preserves (fs : FileSystem) (store : TagStore)
    (tag_name : String) (info' : TagInfo)
    (hc : ConsistentStore store)
    (hslug : info'.tag_slug = (get_or_create_tag_info fs store tag_name).1.tag_slug)
    (hrel : info'.related_paper_slugs =
      (get_or_create_tag_info fs store tag_name).1.related_paper_slugs) :
    ConsistentStore (storeSet (get_or_create_tag_info fs store tag_name).2
      (get_or_create_tag_info fs store tag_name).1.tag_slug info') ∧
    RelatedShrinks store (storeSet (get_or_create_tag_info fs store tag_name).2
      (get_or_create_tag_info fs store tag_name).1.tag_slug info') := by
  constructor
  · exact consistent_storeSet _ _ _ (goc_consistent fs store tag_name hc) hslug
  · intro k
    unfold relatedOf
    rw [storeLookup_storeSet]
    by_cases hk : k = (get_or_create_tag_info fs store tag_name).1.tag_slug
    · rw [if_pos hk]
      rcases goc_fst_cases fs store tag_name with hh | hh
      · left
        rw [goc_fst_slug fs store tag_name hc] at hk
        rw [hk, hh]
        simp [hrel]
      · right
        simp [hrel, hh]
    · rw [if_neg hk]
      exact goc_relatedShrinks fs store tag_name k

theorem generate_tag_survey_preserves (oracle : Nat → Option String)
    (embedO : String → Option (List ℚ)) (store : TagStore)
    (tag_name : String) (force : Bool) (s : GenState)
    (hc : ConsistentStore store) :
    ConsistentStore (generate_tag_survey oracle embedO store tag_name force s).1 ∧
    RelatedShrinks store
      (generate_tag_survey oracle embedO store tag_name force s).1 := by
  rcases survey_result_cases oracle embedO store tag_name force s with h | ⟨c, h⟩
  · rw [h]
    exact ⟨goc_consistent s.fs store tag_name hc,
      goc_relatedShrinks s.fs store tag_name⟩
  · rw [h]
    exact set_field_preserves s.fs store tag_name _ hc rfl rfl

theorem generate_tag_description_preserves (oracle : Nat → Option String)
    (embedO : String → Option (List ℚ)) (store : TagStore)
    (tag_name : String) (force : Bool) (s : GenState)
    (hc : ConsistentStore store) :
    ConsistentStore
      (generate_tag_description oracle embedO store tag_name force s).1 ∧
    RelatedShrinks store
      (generate_tag_description oracle embedO store tag_name force s).1 := by
  rcases description_result_cases oracle embedO store tag_name force s with h | ⟨c, h⟩
  · rw [h]
    exact ⟨goc_consistent s.fs store tag_name hc,
      goc_relatedShrinks s.fs store tag_name⟩
  · rw [h]
    exact set_field_preserves s.fs store tag_name _ hc rfl rfl

theorem process_tag_preserves (oracle : Nat → Option String)
    (embedO : String → Option (List ℚ)) (store : TagStore) (tag_info : TagInfo)
    (s : GenState) (hc : ConsistentStore store) :
    ConsistentStore (process_tag oracle embedO store tag_info s).1 ∧
    RelatedShrinks store (process_tag oracle embedO store tag_info s).1 := by
  unfold process_tag
  rcases hs1 : generate_tag_survey oracle embedO store tag_info.name true s
    with ⟨store1, s1⟩
  dsimp only
  have h1 := generate_tag_survey_preserves oracle embedO store tag_info.name
    true s hc
  rw [hs1] at h1
  have h2 := generate_tag_description_preserves oracle embedO store1
    tag_info.name true s1 h1.1
  exact ⟨h2.1, relatedShrinks_trans store store1 _ h1.2 h2.2⟩

theorem processTagLoop_preserves (oracle : Nat → Option String)
    (embedO : String → Option (List ℚ)) (ts : List String) (store : TagStore)
    (s : GenState) (hc : ConsistentStore store) :
    ConsistentStore (processTagLoop oracle embedO ts store s).1 ∧
    RelatedShrinks store (processTagLoop oracle embedO ts store s).1 := by
  induction ts generalizing store s with
  | nil => exact ⟨hc, fun k => Or.inl rfl⟩
  | cons t ts ih =>
      unfold processTagLoop
      rcases hg : get_or_create_tag_info s.fs store t with ⟨info, store1⟩
      dsimp only
      have hc1 : ConsistentStore store1 := by
        have := goc_consistent s.fs store t hc
        rw [hg] at this
        exact this
      have hr1 : RelatedShrinks store store1 := by
        have := goc_relatedShrinks s.fs store t
        rw [hg] at this
        exact this
      rcases hp : process_tag oracle embedO store1 info s with ⟨store2, s1⟩
      dsimp only
      have hpt := process_tag_preserves oracle embedO store1 info s hc1
      rw [hp] at hpt
      obtain ⟨hc2, hr2⟩ := hpt
      obtain ⟨hc3, hr3⟩ := ih store2 s1 hc2
      exact ⟨hc3, relatedShrinks_trans store store2 _
        (relatedShrinks_trans store store1 store2 hr1 hr2) hr3⟩

theorem storeAppendRelated_lookup (store : TagStore) (slug a : String)
    (st' : TagStore) (h : storeAppendRelated store slug a = some st')
    (k : String) :
    storeLookup st' k =
      if k = slug then
        (storeLookup store k).map (fun i =>
          { i with related_paper_slugs := i.related_paper_slugs ++ [a] })
      else storeLookup store k := by
  induction store generalizing st' with
  | nil => simp [storeAppendRelated] at h
  | cons e rest ih =>
      obtain ⟨k0, v0⟩ := e
      unfold storeAppendRelated at h
      by_cases h0 : slug = k0
      · rw [if_pos h0] at h
        injection h with h
        subst h0
        rw [← h]
        by_cases hk : k = slug <;> simp [storeLookup, hk]
      · rw [if_neg h0] at h
        cases hrec : storeAppendRelated rest slug a with
        | none => rw [hrec] at h; simp at h
        | some st1 =>
            rw [hrec] at h
            simp only [Option.map_some'] at h
            injection h with h
            rw [← h]
            have hrest := ih st1 hrec
            by_cases hk : k = k0
            · subst hk
              have hks : ¬ k = slug := fun hh => h0 hh.symm
              simp [storeLookup, hks]
            · simp [storeLookup, hk, hrest]

theorem linkTagsOfArticle_lookup (tags : List String) (store : TagStore)
    (aslug : String) (st' : TagStore)
    (h : linkTagsOfArticle store aslug tags = some st') (k : String) :
    storeLookup st' k = (storeLookup store k).map (fun i =>
      { i with related_paper_slugs :=
          i.related_paper_slugs ++ List.replicate (tags.count k) aslug }) := by
  induction tags generalizing store st' with
  | nil =>
      unfold linkTagsOfArticle at h
      injection h with h
      rw [← h]
      cases hl : storeLookup store k <;> simp [hl]
  | cons t ts ih =>
      unfold linkTagsOfArticle at h
      cases ha : storeAppendRelated store t aslug with
      | none => rw [ha] at h; simp at h
      | some st1 =>
          rw [ha] at h
          have h1 := storeAppendRelated_lookup store t aslug st1 ha k
          have h2 := ih st1 st' h
          rw [h2, h1]
          by_cases hk : k = t
          · rw [if_pos hk]
            subst hk
            rw [List.count_cons_self]
            cases hl : storeLookup store k <;>
              simp [List.append_assoc, List.replicate_succ]
          · rw [if_neg hk]
            rw [List.count_cons_of_ne hk]

theorem linkAllArticles_lookup (arts : List ArticleSummary) (store : TagStore)
    (st' : TagStore) (h : linkAllArticles store arts = some st') (k : String) :
    storeLookup st' k = (storeLookup store k).map (fun i =>
      { i with related_paper_slugs :=
          i.related_paper_slugs ++ linkedSlugs k arts }) := by
  induction arts generalizing store st' with
  | nil =>
      unfold linkAllArticles at h
      injection h with h
      rw [← h]
      cases hl : storeLookup store k <;> simp [hl, linkedSlugs]
  | cons a rest ih =>
      unfold linkAllArticles at h
      by_cases hemp : a.tags.isEmpty = true
      · rw [if_pos hemp] at h
        have htags : a.tags = [] := by
          cases htt : a.tags
          · rfl
          · rw [htt] at hemp; simp [List.isEmpty] at hemp
        rw [ih store st' h]
        cases hl : storeLookup store k <;>
          simp [linkedSlugs, htags]
      · rw [if_neg hemp] at h
        cases hlk : linkTagsOfArticle store a.paper_slug a.tags with
        | none => rw [hlk] at h; simp at h
        | some st1 =>
            rw [hlk] at h
            rw [ih st1 st' h,
              linkTagsOfArticle_lookup a.tags store a.paper_slug st1 hlk k]
            cases hl : storeLookup store k <;>
              simp [linkedSlugs, List.append_assoc]

theorem linkAllArticles_consistent (arts : List ArticleSummary)
    (store st' : TagStore) (h : linkAllArticles store arts = some st')
    (hc : ConsistentStore store) : ConsistentStore st' := by
  intro k info hlk
  rw [linkAllArticles_lookup arts store st' h k] at hlk
  cases hl : storeLookup store k with
  | none => rw [hl] at hlk; simp at hlk
  | some i =>
      rw [hl] at hlk
      simp only [Option.map_some'] at hlk
      injection hlk with hlk
      rw [← hlk]
      exact hc k i hl

theorem createTagEntries_consistent (fs : FileSystem) (ts : List String)
    (store : TagStore) (hc : ConsistentStore store) :
    ConsistentStore (createTagEntries fs store ts) := by
  induction ts generalizing store with
  | nil => exact hc
  | cons t ts ih =>
      unfold createTagEntries
      exact ih _ (goc_consistent fs store (human_readable_slugify t) hc)

theorem createTagEntries_lookup (fs : FileSystem) (ts : List String)
    (store : TagStore) (k : String) :
    storeLookup (createTagEntries fs store ts) k = storeLookup store k ∨
    ∃ info, storeLookup (createTagEntries fs store ts) k = some info ∧
      info.related_paper_slugs = [] := by
  induction ts generalizing store with
  | nil => exact Or.inl rfl
  | cons t ts ih =>
      unfold createTagEntries
      cases h : storeLookup store (slugify (human_readable_slugify t)) with
      | some info =>
          rw [goc_hit fs store (human_readable_slugify t) info h]
          exact ih store
      | none =>
          rw [goc_miss fs store (human_readable_slugify t) h]
          rcases ih (storeSet store (slugify (human_readable_slugify t)) _) with
            h' | h'
          · rw [h', storeLookup_storeSet]
            by_cases hk : k = slugify (human_readable_slugify t)
            · rw [if_pos hk]
              exact Or.inr ⟨_, rfl, rfl⟩
            · rw [if_neg hk]
              exact Or.inl rfl
          · exact Or.inr h'

theorem mem_linkedSlugs (slug x : String) (arts : List ArticleSummary)
    (h : x ∈ linkedSlugs slug arts) :
    x ∈ arts.map ArticleSummary.paper_slug := by
  induction arts with
  | nil => simp [linkedSlugs] at h
  | cons a rest ih =>
      simp only [linkedSlugs, List.foldr_cons] at h
      rcases List.mem_append.mp h with h | h
      · rw [List.eq_of_mem_replicate h]
        simp
      · simp only [List.map_cons, List.mem_cons]
        exact Or.inr (ih h)

theorem linkedSlugs_nodup (slug : String) (arts : List ArticleSummary)
    (h1 : ∀ a ∈ arts, a.tags.Nodup)
    (h2 : (arts.map ArticleSummary.paper_slug).Nodup) :
    (linkedSlugs slug arts).Nodup := by
  induction arts with
  | nil => simp [linkedSlugs]
  | cons a rest ih =>
      simp only [linkedSlugs, List.foldr_cons]
      simp only [List.map_cons, List.nodup_cons] at h2
      have ihh := ih (fun b hb => h1 b (List.mem_cons_of_mem a hb)) h2.2
      have hcount : a.tags.count slug ≤ 1 :=
        List.nodup_iff_count_le_one.mp (h1 a (List.mem_cons_self a rest)) slug
      rcases Nat.le_one_iff_eq_zero_or_eq_one.mp hcount with h0 | h0
      · rw [h0]
        simpa [linkedSlugs] using ihh
      · rw [h0]
        simp only [List.replicate_succ, List.replicate_zero, List.cons_append,
          List.nil_append]
        exact List.nodup_cons.mpr
          ⟨fun hmem => h2.1 (mem_linkedSlugs slug a.paper_slug rest hmem), ihh⟩

/-- C4 (counterexample): the linking pass appends one registry entry per tag
occurrence, so an article whose tag list repeats a tag twice leaves its slug
twice in related_paper_slugs after process_all_tags_iteratively. -/
theorem related_slugs_duplicate_counterexample :
    artDupTags.tags = ["t", "t"] ∧
    (process_all_tags_iteratively false none oracleNone oracleNone embedNone
      [] emptyFS [artDupTags]).map
      (fun r => (storeLookup r.1 "t").map TagInfo.related_paper_slugs)
      = some (some ["a", "a"]) ∧
    ¬ (["a", "a"] : List String).Nodup := by
  decide

/-- C4 (amended): each occurrence of a tag in the tag list of an article
appends the slug of that article once, so duplicates in a tag list yield
duplicate entries; when the tag list of every article is duplicate-free,
article slugs are
pairwise distinct and tag rebuilding is off, every registry entry left by
process_all_tags_iteratively has a duplicate-free related_paper_slugs. -/
theorem related_slugs_nodup_amended (pruneO : Option String)
    (updO tagO : Nat → Option String) (embedO : String → Option (List ℚ))
    (fs : FileSystem) (articles : List ArticleSummary) (st : TagStore)
    (s : GenState)
    (h1 : ∀ a ∈ articles, a.tags.Nodup)
    (h2 : (articles.map ArticleSummary.paper_slug).Nodup)
    (hrun : process_all_tags_iteratively false pruneO updO tagO embedO []
      fs articles = some (st, s))
    (slug : String) (info : TagInfo) (hlook : storeLookup st slug = some info) :
    info.related_paper_slugs.Nodup := by
  unfold process_all_tags_iteratively at hrun
  dsimp only at hrun
  rw [if_neg Bool.false_ne_true] at hrun
  dsimp only at hrun
  cases hlink : linkAllArticles
      (createTagEntries fs [] (collectTags articles)) articles with
  | none =>
      rw [hlink] at hrun
      exact absurd hrun (by simp)
  | some store2 =>
      rw [hlink] at hrun
      injection hrun with hrun
      have hc1 : ConsistentStore (createTagEntries fs [] (collectTags articles)) :=
        createTagEntries_consistent fs (collectTags articles) []
          (fun k i hki => by simp [storeLookup] at hki)
      have hc2 := linkAllArticles_consistent articles _ store2 hlink hc1
      have hloop := processTagLoop_preserves tagO embedO (collectTags articles)
        store2 { fs := fs, calls := 0 } hc2
      rw [hrun] at hloop
      obtain ⟨_, hshrink⟩ := hloop
      rcases hshrink slug with hsame | hempty
      · unfold relatedOf at hsame
        rw [hlook] at hsame
        have hstore2 := linkAllArticles_lookup articles _ store2 hlink slug
        rcases createTagEntries_lookup fs (collectTags articles) [] slug with
          hcr | ⟨i0, hcr, hrel⟩
        · rw [hcr] at hstore2
          simp only [storeLookup, Option.map_none'] at hstore2
          rw [hstore2] at hsame
          simp at hsame
        · rw [hcr] at hstore2
          simp only [Option.map_some'] at hstore2
          rw [hstore2] at hsame
          simp only [Option.map_some'] at hsame
          injection hsame with hsame
          rw [hsame]
          simp only [hrel, List.nil_append]
          exact linkedSlugs_nodup slug articles h1 h2
      · unfold relatedOf at hempty
        rw [hlook] at hempty
        simp only [Option.map_some'] at hempty
        injection hempty with hempty
        rw [hempty]
        exact List.nodup_nil

/-- Witness for C4 (amended): one article with a duplicate-free tag list
leaves a single registry entry with a duplicate-free related list. -/
theorem related_slugs_nodup_amended_witness :
    (⟨"T", "t", none, none, ["a"]⟩ : TagInfo).related_paper_slugs.Nodup :=
  related_slugs_nodup_amended none oracleNone oracleNone embedNone emptyFS
    [artOneTag]
    [("t", ⟨"T", "t", none, none, ["a"]⟩)] { fs := emptyFS, calls := 2 }
    (by decide) (by decide) rfl "t" ⟨"T", "t", none, none, ["a"]⟩ (by decide)

end PaperReader
